import Mathlib

/-!
Verification of the Function App caller client (`src/main.py`).

The development shallowly embeds the client's core: the token cache
(`FunctionAppClient._get_access_token`), the header builder
(`_get_auth_header`), the request executor (`_make_request`), and the
peripheral test-data generator (`create_numbers`).

Modelling conventions:
* Timestamps and durations are integers (seconds); the Python code compares
  `timedelta(minutes=5).total_seconds() < expires_on - now`, a pure order
  comparison that the integer model captures exactly.
* The Azure credential (`DefaultAzureCredential.get_token`) is an external
  collaborator; it is modelled as an oracle `cred : String → CredResult`
  mapping the scope it is invoked with to either an `AccessToken` or an
  authentication error.
* The HTTP transport (`requests.request`) is an external collaborator; it is
  modelled as an oracle from the resolved URL and the header list to an
  `HttpOutcome` (a response with status and body, a timeout, a connection
  error, or another request exception).
* A Python function that returns normally is modelled by `Except.ok`; an
  exception escaping the function is modelled by `Except.error` carrying the
  exception's class and payload.  The distinction between "returns a value"
  and "raises" is therefore the `ok` / `error` distinction.
* Functions also return the (possibly updated) `ClientState` and, where the
  spec asks about invocation counts, a `Bool` flag recording whether the
  external collaborator (credential, transport) was actually invoked.
-/

namespace FunctionAppCaller

/-- `azure.core.credentials.AccessToken`: a bearer token string together with
its absolute expiry timestamp (`expires_on`). -/
structure AccessToken where
  token : String
  expires_on : Int
  deriving Repr, DecidableEq

/-- The immutable configuration of `FunctionAppClient`: the base URL
(`self.url_base`) and the scope string (`self.scope`). -/
structure ClientConfig where
  url_base : String
  scope : String
  deriving Repr, DecidableEq

/-- `self.scope = f"api://{function_app_client_id}/.default"` from
`FunctionAppClient.__init__`. -/
def mk_scope (function_app_client_id : String) : String :=
  "api://" ++ function_app_client_id ++ "/.default"

/-- The mutable state of `FunctionAppClient`: the single token-cache slot
`self._cached_token : Optional[AccessToken]`. -/
structure ClientState where
  cached_token : Option AccessToken
  deriving Repr, DecidableEq

/-- `self._token_expiry_buffer = timedelta(minutes=5)`, in seconds
(`.total_seconds()` at the comparison site). -/
def token_expiry_buffer : Int := 300

/-- Outcome of one `DefaultAzureCredential.get_token(scope)` call: either an
`AccessToken` or an authentication exception (carried as a message). -/
abbrev CredResult := Except String AccessToken

/-- `FunctionAppClient._get_access_token`, embedded from `src/main.py`
lines 46–68.  Returns the token (or the escaping credential exception), the
updated client state, and whether `self._credential.get_token` was invoked.

Python source, faithfully:
* `now` is a parameter (the code reads `datetime.now().timestamp()`);
* cache hit iff `self._cached_token` is set and
  `self._token_expiry_buffer.total_seconds() < self._cached_token.expires_on - now`;
* otherwise `self._cached_token = self._credential.get_token(self.scope)` and
  the new token is returned; if `get_token` raises, the assignment never
  executes, so the state is unchanged and the exception escapes. -/
def get_access_token (cred : String → CredResult) (now : Int)
    (cfg : ClientConfig) (st : ClientState) :
    Except String String × ClientState × Bool :=
  match st.cached_token with
  | some ct =>
    if token_expiry_buffer < ct.expires_on - now then
      (.ok ct.token, st, false)
    else
      match cred cfg.scope with
      | .ok t => (.ok t.token, { cached_token := some t }, true)
      | .error e => (.error e, st, true)
  | none =>
    match cred cfg.scope with
    | .ok t => (.ok t.token, { cached_token := some t }, true)
    | .error e => (.error e, st, true)

/-- `FunctionAppClient._get_auth_header` (lines 70–80): the header dict built
around a token. -/
def get_auth_header (tok : String) : List (String × String) :=
  [("Authorization", "Bearer " ++ tok), ("Content-Type", "application/json")]

/-- The URL resolution in `_make_request` line 106:
`url = f"{self.url_base}/{endpoint}"` — plain concatenation with one inserted
slash and no normalization of existing slashes. -/
def resolve_url (url_base endpoint : String) : String :=
  url_base ++ "/" ++ endpoint

/-- Outcome of one `requests.request(...)` call, as observed by
`_make_request`'s `try` block: a response (final status and body text), or
one of the exception classes the code catches. -/
inductive HttpOutcome where
  | response (status : Nat) (body : String)
  | timeout
  | connectionError (msg : String)
  | otherError (msg : String)
  deriving Repr, DecidableEq

/-- The exception classes that can escape `_make_request`, with the payload
each carries: `requests.exceptions.Timeout`, `ConnectionError`, `HTTPError`
(whose `e.response` holds the peer's status code and body text), any other
`RequestException`, and an azure credential exception (raised by
`_get_auth_header` → `_get_access_token`, outside the `try` block). -/
inductive PyError where
  | timeout
  | connectionError (msg : String)
  | httpError (status : Nat) (body : String)
  | requestException (msg : String)
  | credentialError (msg : String)
  deriving Repr, DecidableEq

/-- The HTTP status attached to an escaping exception, if any:
`HTTPError.response.status_code` for `httpError`; the other exception classes
carry no status (`e.response` is `None` for a `Timeout`). -/
def PyError.status : PyError → Option Nat
  | .httpError s _ => some s
  | _ => none

/-- `Response.raise_for_status()` raises `HTTPError` exactly for status codes
in `[400, 600)` (client and server errors). -/
def raise_for_status_raises (status : Nat) : Bool :=
  400 ≤ status && status < 600

/-- `FunctionAppClient._make_request`, embedded from `src/main.py`
lines 82–140.  Returns the `(status, body)` of a returned `requests.Response`
(`Except.ok`) or the escaping exception (`Except.error`), the updated client
state, and whether the HTTP transport (`requests.request`) was invoked.

Faithful to the source:
* `url = f"{self.url_base}/{endpoint}"` (line 106);
* `headers = self._get_auth_header()` (line 107) runs before the `try`
  block, so a credential exception escapes without any HTTP attempt;
* inside `try`: `requests.request(...)` then `response.raise_for_status()`;
* every `except` clause (`Timeout`, `ConnectionError`, `HTTPError`,
  `RequestException`) logs and re-`raise`s the same exception. -/
def make_request (cred : String → CredResult) (now : Int)
    (cfg : ClientConfig) (st : ClientState) (endpoint : String)
    (transport : String → List (String × String) → HttpOutcome) :
    Except PyError (Nat × String) × ClientState × Bool :=
  match get_access_token cred now cfg st with
  | (.error e, st', _) => (.error (.credentialError e), st', false)
  | (.ok tok, st', _) =>
    match transport (resolve_url cfg.url_base endpoint) (get_auth_header tok) with
    | .response s b =>
      if raise_for_status_raises s then (.error (.httpError s b), st', true)
      else (.ok (s, b), st', true)
    | .timeout => (.error .timeout, st', true)
    | .connectionError m => (.error (.connectionError m), st', true)
    | .otherError m => (.error (.requestException m), st', true)

/-- The value of a decimal digit string read left to right, modelling
Python's `int` on a digit string. -/
def decimal_value (digits : List Nat) : Nat :=
  digits.foldl (fun acc d => acc * 10 + d) 0

/-- `int("1" + digits * "0")` from `create_numbers` line 189: the digit `1`
followed by `digits` zeros. -/
def upper_bound (digits : Nat) : Nat :=
  decimal_value (1 :: List.replicate digits 0)

/-- `random.randint(lo, hi)`: a uniformly random integer in the inclusive
range `[lo, hi]`, modelled by reducing a raw draw `r` into the range. -/
def randint (r lo hi : Nat) : Nat :=
  lo + r % (hi - lo + 1)

/-- `create_numbers` from `src/main.py` lines 178–191, with the random
source made explicit as a stream of raw draws.  The function builds the list
and then evaluates `numbers[0]` inside the `logger.debug` f-string (the
argument is evaluated eagerly regardless of log level); for an empty list
that read raises `IndexError`, modelled as `Except.error`. -/
def create_numbers (n digits : Nat) (draws : Nat → Nat) :
    Except String (List Nat) :=
  match (List.range n).map (fun i => randint (draws i) 0 (upper_bound digits)) with
  | [] => .error "IndexError: list index out of range"
  | x :: rest => .ok (x :: rest)

/-! ### Helper lemmas (shared; not tied to a single claim) -/

/-- Folding the decimal accumulator over `d` zero digits multiplies the
accumulator by `10 ^ d`. -/
lemma foldl_decimal_replicate_zero (d acc : Nat) :
    (List.replicate d 0).foldl (fun acc d => acc * 10 + d) acc = acc * 10 ^ d := by
  induction d generalizing acc with
  | zero => simp
  | succ k ih =>
    rw [List.replicate_succ, List.foldl_cons, ih]
    ring

/-- `int("1" + digits * "0")` evaluates to `10 ^ digits`. -/
lemma upper_bound_eq (digits : Nat) : upper_bound digits = 10 ^ digits := by
  unfold upper_bound decimal_value
  rw [List.foldl_cons, foldl_decimal_replicate_zero]
  ring

/-- `random.randint(0, upper_bound digits)` never exceeds the inclusive
upper bound. -/
lemma randint_le_upper (r digits : Nat) :
    randint r 0 (upper_bound digits) ≤ upper_bound digits := by
  unfold randint
  have h : r % (upper_bound digits - 0 + 1) < upper_bound digits - 0 + 1 :=
    Nat.mod_lt _ (by omega)
  omega

/-- Feeding `upper_bound digits` as the raw draw realizes the inclusive upper
bound itself. -/
lemma randint_hits_upper (digits : Nat) :
    randint (upper_bound digits) 0 (upper_bound digits) = upper_bound digits := by
  unfold randint
  have h : upper_bound digits % (upper_bound digits - 0 + 1) = upper_bound digits :=
    Nat.mod_eq_of_lt (by omega)
  omega

/-- For a positive count the generated list is returned intact. -/
lemma create_numbers_eq_of_pos (n digits : Nat) (draws : Nat → Nat)
    (h : 0 < n) :
    create_numbers n digits draws
      = .ok ((List.range n).map (fun i => randint (draws i) 0 (upper_bound digits))) := by
  unfold create_numbers
  have hne : (List.range n).map (fun i => randint (draws i) 0 (upper_bound digits)) ≠ [] := by
    simp only [ne_eq, List.map_eq_nil_iff, List.range_eq_nil]
    omega
  split
  · rename_i heq
    exact absurd heq hne
  · rename_i x rest heq
    rw [heq]

/-- When the credential call fails, `_get_access_token` either served a cache
hit or let the failure escape with the cache slot untouched: the state
component of the result is always the input state. -/
lemma getToken_state_of_cred_error (cred : String → CredResult) (now : Int)
    (cfg : ClientConfig) (st : ClientState) (e : String)
    (h : cred cfg.scope = .error e) :
    (get_access_token cred now cfg st).2.1 = st := by
  unfold get_access_token
  cases hct : st.cached_token with
  | none => simp [h]
  | some ct =>
    by_cases hb : token_expiry_buffer < ct.expires_on - now
    · simp [hb]
    · simp [hb, h]

/-- If token acquisition fails (the result component is an error), the whole
result is the escaped error with the state unchanged and the credential
invoked. -/
lemma getToken_error_eq (cred : String → CredResult) (now : Int)
    (cfg : ClientConfig) (st : ClientState) (e : String)
    (h : (get_access_token cred now cfg st).1 = .error e) :
    get_access_token cred now cfg st = (.error e, st, true) := by
  unfold get_access_token at h ⊢
  cases hct : st.cached_token with
  | none =>
    rw [hct] at h
    cases hc : cred cfg.scope with
    | ok t => rw [hc] at h; simp at h
    | error e' =>
      rw [hc] at h
      simp at h
      subst h
      rfl
  | some ct =>
    rw [hct] at h
    by_cases hb : token_expiry_buffer < ct.expires_on - now
    · simp [hb] at h
    · cases hc : cred cfg.scope with
      | ok t => rw [hc] at h; simp [hb] at h
      | error e' =>
        rw [hc] at h
        simp [hb] at h
        subst h
        simp [hb]

/-! ### Claim theorems -/

/-- C1: on every `_get_access_token` call, if a cached token exists and
`expires_on - now` is strictly greater than the expiry buffer, the cached
token string is returned unchanged and the credential is not invoked;
otherwise (no cached token, or remaining validity ≤ buffer, the boundary
case included) the credential is invoked with the configured scope, its
token/expiry pair replaces the cache slot, and the new token is returned. -/
theorem getToken_cache_policy (cred : String → CredResult) (now : Int)
    (cfg : ClientConfig) (st : ClientState) :
    (∀ ct, st.cached_token = some ct →
      token_expiry_buffer < ct.expires_on - now →
      get_access_token cred now cfg st = (.ok ct.token, st, false)) ∧
    ((st.cached_token = none ∨ ∃ ct, st.cached_token = some ct ∧
        ct.expires_on - now ≤ token_expiry_buffer) →
      ∀ t, cred cfg.scope = .ok t →
        get_access_token cred now cfg st = (.ok t.token, ⟨some t⟩, true)) := by
  constructor
  · intro ct hct h
    unfold get_access_token
    rw [hct]
    simp [h]
  · rintro (hnone | ⟨ct, hct, hle⟩) t ht
    · unfold get_access_token
      rw [hnone, ht]
    · unfold get_access_token
      rw [hct]
      simp [not_lt.mpr hle, ht]

/-- Witness for C1 at concrete inputs: a fresh cached token (expiry 1000 at
now = 0) is served from the cache without invoking the credential, and a
boundary token (expiry 300 = buffer at now = 0) triggers a refresh that
stores and returns the credential's new token. -/
theorem getToken_cache_policy_witness :
    get_access_token (fun _ => .ok ⟨"new", 50⟩) 0 ⟨"b", "s"⟩
        ⟨some ⟨"tok", 1000⟩⟩ = (.ok "tok", ⟨some ⟨"tok", 1000⟩⟩, false) ∧
    get_access_token (fun _ => .ok ⟨"new", 50⟩) 0 ⟨"b", "s"⟩
        ⟨some ⟨"tok", 300⟩⟩ = (.ok "new", ⟨some ⟨"new", 50⟩⟩, true) :=
  ⟨(getToken_cache_policy (fun _ => .ok ⟨"new", 50⟩) 0 ⟨"b", "s"⟩
      ⟨some ⟨"tok", 1000⟩⟩).1 ⟨"tok", 1000⟩ rfl (by decide),
   (getToken_cache_policy (fun _ => .ok ⟨"new", 50⟩) 0 ⟨"b", "s"⟩
      ⟨some ⟨"tok", 300⟩⟩).2 (.inr ⟨⟨"tok", 300⟩, rfl, by decide⟩)
      ⟨"new", 50⟩ rfl⟩

/-- C6 (counterexample): the claim "every token returned by
`_get_access_token` has at least `expiryBuffer` of remaining validity, on
both the cache-hit and the refresh path" is false on the refresh path: the
code stores and returns whatever the credential hands back without checking
its expiry.  Here the credential returns a token that expires at the very
moment `now = 0` of the call; the call succeeds and returns it although its
remaining validity `0 - 0 = 0` is below the 300-second buffer. -/
theorem getToken_validity_cex :
    get_access_token (fun _ => .ok ⟨"t", 0⟩) 0 ⟨"b", "s"⟩ ⟨none⟩
      = (.ok "t", ⟨some ⟨"t", 0⟩⟩, true) ∧
    (0 : Int) - 0 < token_expiry_buffer :=
  ⟨rfl, by decide⟩

/-- C6 (amended): every token returned by a successful `_get_access_token`
call has at least `expiryBuffer` of remaining validity, provided the
credential only hands out tokens with at least that much validity; on the
cache-hit path the guarantee is unconditional (the hit test is strict). -/
theorem getToken_validity (cred : String → CredResult) (now : Int)
    (cfg : ClientConfig) (st : ClientState) (tok : String)
    (st' : ClientState) (invoked : Bool)
    (h : get_access_token cred now cfg st = (.ok tok, st', invoked))
    (hcred : ∀ t, cred cfg.scope = .ok t →
      token_expiry_buffer ≤ t.expires_on - now) :
    ∃ ct, st'.cached_token = some ct ∧ ct.token = tok ∧
      token_expiry_buffer ≤ ct.expires_on - now := by
  unfold get_access_token at h
  cases hct : st.cached_token with
  | none =>
    rw [hct] at h
    cases hc : cred cfg.scope with
    | ok t =>
      rw [hc] at h
      simp at h
      obtain ⟨htok, hst, -⟩ := h
      subst hst
      subst htok
      exact ⟨t, rfl, rfl, hcred t hc⟩
    | error e => rw [hc] at h; simp at h
  | some ct =>
    rw [hct] at h
    by_cases hb : token_expiry_buffer < ct.expires_on - now
    · simp [hb] at h
      obtain ⟨htok, hst, -⟩ := h
      subst hst
      subst htok
      exact ⟨ct, hct, rfl, le_of_lt hb⟩
    · simp [hb] at h
      cases hc : cred cfg.scope with
      | ok t =>
        rw [hc] at h
        simp at h
        obtain ⟨htok, hst, -⟩ := h
        subst hst
        subst htok
        exact ⟨t, rfl, rfl, hcred t hc⟩
      | error e => rw [hc] at h; simp at h

/-- Witness for the amended C6: with a credential issuing a token valid for
3600 s at `now = 0`, the refreshed token has at least the 300-second buffer
of validity. -/
theorem getToken_validity_witness :
    ∃ ct, (ClientState.mk (some ⟨"t", 3600⟩)).cached_token = some ct ∧
      ct.token = "t" ∧ token_expiry_buffer ≤ ct.expires_on - 0 :=
  getToken_validity (fun _ => .ok ⟨"t", 3600⟩) 0 ⟨"b", "s"⟩ ⟨none⟩ "t"
    ⟨some ⟨"t", 3600⟩⟩ true rfl
    (fun t ht => by
      rw [Except.ok.injEq] at ht
      rw [← ht]
      decide)

/-- C7: when the credential call fails, the failure escapes
`_get_access_token` and the cache slot is left exactly as it was: the state
component of the result always equals the input state (so no partial or
corrupt token is ever stored, and a stale cached token remains available),
and on any path that actually consults the credential (empty slot, or
remaining validity ≤ buffer) the result is precisely the credential's
error. -/
theorem getToken_cred_failure_propagates (cred : String → CredResult)
    (now : Int) (cfg : ClientConfig) (st : ClientState) (e : String)
    (h : cred cfg.scope = .error e) :
    (get_access_token cred now cfg st).2.1 = st ∧
    ((st.cached_token = none ∨ ∃ ct, st.cached_token = some ct ∧
        ct.expires_on - now ≤ token_expiry_buffer) →
      get_access_token cred now cfg st = (.error e, st, true)) := by
  refine ⟨getToken_state_of_cred_error cred now cfg st e h, ?_⟩
  rintro (hnone | ⟨ct, hct, hle⟩)
  · unfold get_access_token
    rw [hnone, h]
  · unfold get_access_token
    rw [hct]
    simp [not_lt.mpr hle, h]

/-- Witness for C7: a failing credential against an empty cache leaves the
cache empty and surfaces exactly the credential's error. -/
theorem getToken_cred_failure_propagates_witness :
    get_access_token (fun _ => .error "auth down") 0 ⟨"b", "s"⟩ ⟨none⟩
      = (.error "auth down", ⟨none⟩, true) :=
  (getToken_cred_failure_propagates (fun _ => .error "auth down") 0
    ⟨"b", "s"⟩ ⟨none⟩ "auth down" rfl).2 (Or.inl rfl)

/-- C9: after every successful `_get_access_token` call the cache slot is
non-empty, the returned string is the `token` field of the stored
`AccessToken`, and the stored token/expiry pair is a single credential
result (when the credential was invoked, the slot holds exactly the
`AccessToken` value it produced; when it was not, the slot is the untouched
previous one) — never a mismatched combination. -/
theorem getToken_cache_consistency (cred : String → CredResult) (now : Int)
    (cfg : ClientConfig) (st : ClientState) (tok : String)
    (st' : ClientState) (invoked : Bool)
    (h : get_access_token cred now cfg st = (.ok tok, st', invoked)) :
    ∃ ct, st'.cached_token = some ct ∧ ct.token = tok ∧
      (invoked = true → cred cfg.scope = .ok ct) ∧
      (invoked = false → st' = st ∧ st.cached_token = some ct) := by
  unfold get_access_token at h
  cases hct : st.cached_token with
  | none =>
    rw [hct] at h
    cases hc : cred cfg.scope with
    | ok t =>
      rw [hc] at h
      simp at h
      obtain ⟨htok, hst, hinv⟩ := h
      subst hst
      subst htok
      subst hinv
      exact ⟨t, rfl, rfl, fun _ => rfl, fun hf => by simp at hf⟩
    | error e => rw [hc] at h; simp at h
  | some ct =>
    rw [hct] at h
    by_cases hb : token_expiry_buffer < ct.expires_on - now
    · simp [hb] at h
      obtain ⟨htok, hst, hinv⟩ := h
      subst hst
      subst htok
      subst hinv
      exact ⟨ct, hct, rfl, fun htr => by simp at htr, fun _ => ⟨rfl, rfl⟩⟩
    · simp [hb] at h
      cases hc : cred cfg.scope with
      | ok t =>
        rw [hc] at h
        simp at h
        obtain ⟨htok, hst, hinv⟩ := h
        subst hst
        subst htok
        subst hinv
        exact ⟨t, rfl, rfl, fun _ => rfl, fun hf => by simp at hf⟩
      | error e => rw [hc] at h; simp at h

/-- Witness for C9 on the refresh path: after refreshing an expired cache
entry, the slot holds exactly the credential's token/expiry pair and the
returned string matches the stored token. -/
theorem getToken_cache_consistency_witness :
    ∃ ct, (ClientState.mk (some ⟨"new", 900⟩)).cached_token = some ct ∧
      ct.token = "new" ∧
      (true = true →
        (fun (_ : String) => (.ok ⟨"new", 900⟩ : CredResult)) "s" = .ok ct) ∧
      (true = false →
        (ClientState.mk (some ⟨"new", 900⟩)) = ⟨some ⟨"old", 100⟩⟩ ∧
        (ClientState.mk (some ⟨"old", 100⟩)).cached_token = some ct) :=
  getToken_cache_consistency (fun _ => .ok ⟨"new", 900⟩) 0 ⟨"b", "s"⟩
    ⟨some ⟨"old", 100⟩⟩ "new" ⟨some ⟨"new", 900⟩⟩ true rfl

/-- C2 (counterexample): the claim that the URL join produces exactly one
separating slash regardless of a trailing slash on the base or a leading
slash on the endpoint is false: `url = f"{self.url_base}/{endpoint}"` never
strips existing slashes, so the spec's own example inputs
`("https://x.com/", "alive")` and `("https://x.com", "/alive")` both resolve
to `"https://x.com//alive"` (double slash), not `"https://x.com/alive"`. -/
theorem urlJoin_single_slash_cex :
    resolve_url "https://x.com/" "alive" = "https://x.com//alive" ∧
    resolve_url "https://x.com/" "alive" ≠ "https://x.com/alive" ∧
    resolve_url "https://x.com" "/alive" = "https://x.com//alive" ∧
    resolve_url "https://x.com" "/alive" ≠ "https://x.com/alive" :=
  ⟨rfl, by decide, rfl, by decide⟩

/-- C2 (amended): `_make_request` resolves the URL as the literal
concatenation `url_base ++ "/" ++ endpoint` — exactly one slash is inserted
and no character of either side is dropped or duplicated — so the join is
single-slash only when the base has no trailing slash and the endpoint no
leading slash; with a trailing or leading slash the result has a double
slash. -/
theorem urlJoin_literal_concat (url_base endpoint : String) :
    (resolve_url url_base endpoint).data
      = url_base.data ++ '/' :: endpoint.data ∧
    resolve_url "https://x.com" "alive" = "https://x.com/alive" ∧
    resolve_url "https://x.com/" "alive" = "https://x.com//alive" ∧
    resolve_url "https://x.com" "/alive" = "https://x.com//alive" := by
  refine ⟨?_, rfl, rfl, rfl⟩
  simp [resolve_url]

/-- C3 (counterexample): the claim that every transport failure is caught
and returned as a ClassifiedResult value — that no transport exception
escapes `_make_request` — is false: every `except` clause in the code ends
in a bare `raise`.  Here the transport times out and the result is
`Except.error` (the `Timeout` exception escaping the function), not a
returned value: nothing classified is returned to the caller. -/
theorem makeRequest_never_raises_cex :
    make_request (fun _ => .ok ⟨"t", 3600⟩) 0 ⟨"https://x.com", "s"⟩ ⟨none⟩
        "alive" (fun _ _ => .timeout)
      = (.error .timeout, ⟨some ⟨"t", 3600⟩⟩, true) := rfl

/-- C3 (amended): every transport failure is caught by a matching `except`
clause and re-raised unchanged, so what escapes `_make_request` is always
the original exception class with its payload (a `Timeout`, a
`ConnectionError`, an `HTTPError` carrying the response, or another
`RequestException`) — never an unhandled crash, but also never a returned
classified value. -/
theorem makeRequest_transport_reraise (cred : String → CredResult)
    (now : Int) (cfg : ClientConfig) (st : ClientState) (endpoint : String)
    (transport : String → List (String × String) → HttpOutcome)
    (tok : String) (st' : ClientState) (inv : Bool)
    (htok : get_access_token cred now cfg st = (.ok tok, st', inv)) :
    (transport (resolve_url cfg.url_base endpoint) (get_auth_header tok)
        = .timeout →
      make_request cred now cfg st endpoint transport
        = (.error .timeout, st', true)) ∧
    (∀ m, transport (resolve_url cfg.url_base endpoint) (get_auth_header tok)
        = .connectionError m →
      make_request cred now cfg st endpoint transport
        = (.error (.connectionError m), st', true)) ∧
    (∀ s b, transport (resolve_url cfg.url_base endpoint) (get_auth_header tok)
        = .response s b → raise_for_status_raises s = true →
      make_request cred now cfg st endpoint transport
        = (.error (.httpError s b), st', true)) ∧
    (∀ m, transport (resolve_url cfg.url_base endpoint) (get_auth_header tok)
        = .otherError m →
      make_request cred now cfg st endpoint transport
        = (.error (.requestException m), st', true)) := by
  unfold make_request
  rw [htok]
  refine ⟨fun ht => ?_, fun m hm => ?_, fun s b hs hr => ?_, fun m hm => ?_⟩
  · simp [ht]
  · simp [hm]
  · simp [hs, hr]
  · simp [hm]

/-- Witness for the amended C3: a refused connection escapes as exactly the
`ConnectionError` it was. -/
theorem makeRequest_transport_reraise_witness :
    make_request (fun _ => .ok ⟨"t", 3600⟩) 0 ⟨"https://x.com", "s"⟩ ⟨none⟩
        "alive" (fun _ _ => .connectionError "refused")
      = (.error (.connectionError "refused"), ⟨some ⟨"t", 3600⟩⟩, true) :=
  (makeRequest_transport_reraise (fun _ => .ok ⟨"t", 3600⟩) 0
      ⟨"https://x.com", "s"⟩ ⟨none⟩ "alive"
      (fun _ _ => .connectionError "refused") "t" ⟨some ⟨"t", 3600⟩⟩ true
      rfl).2.1 "refused" rfl

/-- C4 (counterexample): the claim that every non-2xx peer status surfaces
as a failure carrying that status is false at status 304:
`raise_for_status()` only raises for statuses in `[400, 600)`, so a 304
(non-2xx) response is returned as a success, and no failure result is
delivered at all. -/
theorem httpStatus_preserved_cex :
    make_request (fun _ => .ok ⟨"t", 3600⟩) 0 ⟨"https://x.com", "s"⟩ ⟨none⟩
        "alive" (fun _ _ => .response 304 "cached")
      = (.ok (304, "cached"), ⟨some ⟨"t", 3600⟩⟩, true) ∧
    ¬ (200 ≤ 304 ∧ 304 < 300) :=
  ⟨rfl, by decide⟩

/-- C4 (amended): for every peer response with a status in `[400, 600)` (the
statuses `raise_for_status()` raises on), the failure delivered to the
caller is an `HTTPError` carrying the peer's exact status code and body,
never an invented status; statuses outside that range are returned as
successful responses, also carrying the exact status and body. -/
theorem httpStatus_preserved (cred : String → CredResult) (now : Int)
    (cfg : ClientConfig) (st : ClientState) (endpoint : String)
    (transport : String → List (String × String) → HttpOutcome)
    (tok : String) (st' : ClientState) (inv : Bool) (s : Nat) (b : String)
    (htok : get_access_token cred now cfg st = (.ok tok, st', inv))
    (hresp : transport (resolve_url cfg.url_base endpoint)
        (get_auth_header tok) = .response s b) :
    (raise_for_status_raises s = true →
      make_request cred now cfg st endpoint transport
        = (.error (.httpError s b), st', true)) ∧
    (raise_for_status_raises s = false →
      make_request cred now cfg st endpoint transport
        = (.ok (s, b), st', true)) := by
  unfold make_request
  rw [htok]
  constructor <;> intro hr <;> simp [hresp, hr]

/-- Witness for the amended C4: a mocked 404 with body
`{"error":"not found"}` surfaces as an `HTTPError` with status 404 and that
exact body — not a generic 500. -/
theorem httpStatus_preserved_witness :
    make_request (fun _ => .ok ⟨"t", 3600⟩) 0 ⟨"https://x.com", "s"⟩ ⟨none⟩
        "alive" (fun _ _ => .response 404 "\x7b\"error\":\"not found\"\x7d")
      = (.error (.httpError 404 "\x7b\"error\":\"not found\"\x7d"),
        ⟨some ⟨"t", 3600⟩⟩, true) :=
  (httpStatus_preserved (fun _ => .ok ⟨"t", 3600⟩) 0 ⟨"https://x.com", "s"⟩
      ⟨none⟩ "alive"
      (fun _ _ => .response 404 "\x7b\"error\":\"not found\"\x7d") "t"
      ⟨some ⟨"t", 3600⟩⟩ true 404 "\x7b\"error\":\"not found\"\x7d"
      rfl rfl).1 rfl

/-- C5 (counterexample): the claim that a timeout yields a failure with
status 408 is false: the `except Timeout` clause logs and re-raises the
`Timeout` exception, which escapes the function (`Except.error`) and carries
no HTTP status at all — in particular not 408; no status-408 value is built
anywhere in the code. -/
theorem timeout_408_cex :
    (make_request (fun _ => .ok ⟨"t", 3600⟩) 0 ⟨"https://x.com", "s"⟩ ⟨none⟩
        "alive" (fun _ _ => .timeout)).1 = .error .timeout ∧
    PyError.status .timeout = none ∧
    PyError.status .timeout ≠ some 408 :=
  ⟨rfl, rfl, by decide⟩

/-- C5 (amended): when the transport times out, `_make_request` lets the
`Timeout` exception escape unchanged (a classification distinct from every
other failure class), and that exception carries no HTTP status code. -/
theorem timeout_reraised (cred : String → CredResult) (now : Int)
    (cfg : ClientConfig) (st : ClientState) (endpoint : String)
    (transport : String → List (String × String) → HttpOutcome)
    (tok : String) (st' : ClientState) (inv : Bool)
    (htok : get_access_token cred now cfg st = (.ok tok, st', inv))
    (ht : transport (resolve_url cfg.url_base endpoint)
        (get_auth_header tok) = .timeout) :
    make_request cred now cfg st endpoint transport
      = (.error .timeout, st', true) ∧
    PyError.status .timeout = none := by
  constructor
  · unfold make_request
    rw [htok]
    simp [ht]
  · rfl

/-- Witness for the amended C5: a concrete timed-out call. -/
theorem timeout_reraised_witness :
    make_request (fun _ => .ok ⟨"tk", 9000⟩) 100 ⟨"https://y.org", "sc"⟩
        ⟨none⟩ "ping" (fun _ _ => .timeout)
      = (.error .timeout, ⟨some ⟨"tk", 9000⟩⟩, true) ∧
    PyError.status .timeout = none :=
  timeout_reraised (fun _ => .ok ⟨"tk", 9000⟩) 100 ⟨"https://y.org", "sc"⟩
    ⟨none⟩ "ping" (fun _ _ => .timeout) "tk" ⟨some ⟨"tk", 9000⟩⟩ true
    rfl rfl

/-- C8: when token acquisition fails, `_make_request` lets the credential
exception escape as itself (the `credentialError` class, distinct from every
HTTP failure class), fabricates no result value, leaves the cache unchanged,
and never invokes the HTTP transport (the invocation flag is `false`): the
header construction at line 107 runs before the `try` block, so token
acquisition strictly precedes the HTTP call. -/
theorem makeRequest_auth_abort (cred : String → CredResult) (now : Int)
    (cfg : ClientConfig) (st : ClientState) (endpoint : String)
    (transport : String → List (String × String) → HttpOutcome) (e : String)
    (herr : (get_access_token cred now cfg st).1 = .error e) :
    make_request cred now cfg st endpoint transport
      = (.error (.credentialError e), st, false) := by
  unfold make_request
  rw [getToken_error_eq cred now cfg st e herr]

/-- Witness for C8: with a failing credential and an empty cache, the call
aborts before the transport (which would have answered 200) is reached. -/
theorem makeRequest_auth_abort_witness :
    make_request (fun _ => .error "auth down") 0 ⟨"https://x.com", "s"⟩
        ⟨none⟩ "alive" (fun _ _ => .response 200 "ok")
      = (.error (.credentialError "auth down"), ⟨none⟩, false) :=
  makeRequest_auth_abort (fun _ => .error "auth down") 0
    ⟨"https://x.com", "s"⟩ ⟨none⟩ "alive" (fun _ _ => .response 200 "ok")
    "auth down" rfl

/-- C10: for every `n ≥ 1` and `digits ≥ 1`, `create_numbers` returns a
list of exactly `n` numbers, each at most `10 ^ digits` — and the inclusive
upper bound `10 ^ digits` is itself attainable (`int("1" + digits * "0")`
is `10 ^ digits` and `random.randint` includes both endpoints); for `n = 0`
the function does not return an empty list but raises `IndexError`, because
the debug log line reads `numbers[0]` unconditionally. -/
theorem create_numbers_range (n digits : Nat) (draws : Nat → Nat)
    (hn : 1 ≤ n) (hd : 1 ≤ digits) :
    (∃ l, create_numbers n digits draws = .ok l ∧ l.length = n ∧
      ∀ x ∈ l, x ≤ 10 ^ digits) ∧
    (∃ l, create_numbers n digits (fun _ => 10 ^ digits) = .ok l ∧
      10 ^ digits ∈ l) ∧
    create_numbers 0 digits draws
      = .error "IndexError: list index out of range" := by
  refine ⟨⟨_, create_numbers_eq_of_pos n digits draws (by omega), ?_, ?_⟩,
    ⟨_, create_numbers_eq_of_pos n digits (fun _ => 10 ^ digits) (by omega),
      ?_⟩, rfl⟩
  · simp
  · intro x hx
    simp only [List.mem_map] at hx
    obtain ⟨i, -, rfl⟩ := hx
    rw [← upper_bound_eq]
    exact randint_le_upper (draws i) digits
  · rw [List.mem_map]
    refine ⟨0, by simp; omega, ?_⟩
    rw [← upper_bound_eq digits]
    exact randint_hits_upper digits

/-- Witness for C10 at `n = 2`, `digits = 1`: two numbers, each at most 10,
the draw `10` realizes the inclusive bound, and `n = 0` raises. -/
theorem create_numbers_range_witness :
    (∃ l, create_numbers 2 1 (fun _ => 3) = .ok l ∧ l.length = 2 ∧
      ∀ x ∈ l, x ≤ 10 ^ 1) ∧
    (∃ l, create_numbers 2 1 (fun _ => 10 ^ 1) = .ok l ∧ 10 ^ 1 ∈ l) ∧
    create_numbers 0 1 (fun _ => 3)
      = .error "IndexError: list index out of range" :=
  create_numbers_range 2 1 (fun _ => 3) (by decide) (by decide)

end FunctionAppCaller
